import Mathlib

/-!
# Verification of the ztnet ZeroTier API wrapper

A shallow embedding of the dual-backend (Local controller / Central cloud)
API layer: the flattening functions, the transport error wrapping, network
creation payload construction, and the two network-detail aggregation
algorithms. JavaScript objects are modelled as association lists of
string-keyed values where a later entry shadows an earlier one, which is
exactly the semantics of object-literal spread (`{a, ...b, ...c}` is the
concatenation of the entry lists, with lookups taking the last match).
-/

/-- A JSON/JavaScript runtime value. -/
inductive Val where
  | null : Val
  | undefined : Val
  | bool : Bool → Val
  | num : Int → Val
  | str : String → Val
  | arr : List Val → Val
  | obj : List (String × Val) → Val
deriving Repr

/-- A JavaScript object, as its ordered list of entries. A key occurring
twice means the later entry shadows the earlier one (spread semantics). -/
abbrev Obj := List (String × Val)

/-- Property lookup: the value of the LAST entry carrying the key, the way
an object literal built by spreads resolves a duplicated key. -/
def Obj.get : Obj → String → Option Val
  | [], _ => none
  | (k, v) :: rest, q =>
    match Obj.get rest q with
    | some w => some w
    | none => if k == q then some v else none

/-- Whether the object has an own property with the given key. -/
def Obj.hasKey (o : Obj) (k : String) : Bool :=
  o.any (fun p => p.1 == k)

/-- The entries contributed by `...v` in an object literal: an object
contributes its own entries; `null`, `undefined`, numbers and booleans
contribute none (the string/array index-key cases do not arise here). -/
def spreadVal : Val → Obj
  | .obj o => o
  | _ => []

/-- The residue of destructuring `const {id, config, ...rest} = o`. -/
def restOf (o : Obj) : Obj :=
  o.filter (fun p => p.1 != "id" && p.1 != "config")

/-- Source `flattenCentralMember`:
`const { id: nodeId, config, ...otherProps } = member;`
`return { nodeId, ...config, ...otherProps };` -/
def flattenCentralMember (member : Obj) : Obj :=
  let nodeId := (Obj.get member "id").getD Val.undefined
  let config := (Obj.get member "config").getD Val.undefined
  let otherProps := restOf member
  ("nodeId", nodeId) :: (spreadVal config ++ otherProps)

/-- Source `flattenCentralMembers`: `if (!members) return [];` then maps
`flattenCentralMember` over the array. `none` models a `null`/`undefined`
argument. -/
def flattenCentralMembers : Option (List Obj) → List Obj
  | none => []
  | some members => members.map flattenCentralMember

/-- Source `flattenNetwork`:
`const { id: nwid, config, ...otherProps } = network;`
`return { nwid, ...config, ...otherProps };` -/
def flattenNetwork (network : Obj) : Obj :=
  let nwid := (Obj.get network "id").getD Val.undefined
  let config := (Obj.get network "config").getD Val.undefined
  let otherProps := restOf network
  ("nwid", nwid) :: (spreadVal config ++ otherProps)

/-- An error raised by the HTTP client: a response with a non-2xx status,
or a network-level failure with no response at all. -/
inductive AxiosErr where
  | status : Nat → AxiosErr
  | network : AxiosErr
deriving Repr, DecidableEq

/-- A thrown JavaScript error value as this module produces and consumes
them: an axios error, a TypeError from calling a method on `null`, or an
`APIError(message, cause)` wrapping another error. -/
inductive JsError where
  | axios : AxiosErr → JsError
  | typeError : String → JsError
  | api : String → Option JsError → JsError
deriving Repr

/-- Source `flattenNetworks`: `networks.map(...)` with NO null guard, so a
`null`/`undefined` argument throws a TypeError instead of yielding `[]`. -/
def flattenNetworks : Option (List Obj) → Except JsError (List Obj)
  | none => .error (.typeError "Cannot read properties of null (reading map)")
  | some networks => .ok (networks.map flattenNetwork)

/-- The `error.response?.status` field of an axios error. -/
def statusOf : AxiosErr → Option Nat
  | .status c => some c
  | .network => none

/-- Source `getData`: returns the response body on success; on failure maps
status 401 to `APIError("Invalid API Key")`, 404 to
`APIError("Endpoint Not Found")`, anything else to the generic
`APIError("An error occurred fetching data from " + addr)`, each carrying
the axios error as cause. -/
def getData (addr : String) (outcome : Except AxiosErr Val) : Except JsError Val :=
  match outcome with
  | .ok d => .ok d
  | .error e =>
    if statusOf e = some 401 then
      .error (.api "Invalid API Key" (some (.axios e)))
    else if statusOf e = some 404 then
      .error (.api "Endpoint Not Found" (some (.axios e)))
    else
      .error (.api ("An error occurred fetching data from " ++ addr) (some (.axios e)))

/-- Source `postData`: no status-code discrimination at all — every failure
becomes the one generic posting `APIError` carrying the cause. -/
def postData (addr : String) (outcome : Except AxiosErr Val) : Except JsError Val :=
  match outcome with
  | .ok d => .ok d
  | .error e =>
    .error (.api ("An error occurred while posting data to " ++ addr) (some (.axios e)))

/-- Source `network_delete`: `axios.delete` directly; success yields the
status code, every failure is wrapped in the one generic delete `APIError`
(no 401/404 discrimination). -/
def network_delete (isCentral : Bool) (outcome : Except AxiosErr Nat) : Except JsError Nat :=
  match outcome with
  | .ok status => .ok status
  | .error e =>
    .error (.api ((if isCentral then "[CENTRAL] " else "") ++
      "An error occurred while getting network_delete") (some (.axios e)))

/-- Default base address of the local controller (`ZT_ADDR` fallback). -/
def LOCAL_ZT_ADDR : String := "http://127.0.0.1:9993"

/-- Default base address of the Central cloud service. -/
def CENTRAL_ZT_ADDR : String := "https://api.zerotier.com/api/v1"

/-- The HTTP requests the aggregation paths can issue for a network:
its member list, the network record itself, or one member's detail. -/
inductive ZTRequest where
  | memberList : String → ZTRequest
  | networkGet : String → ZTRequest
  | memberGet : String → String → ZTRequest
deriving Repr, DecidableEq

/-- An abstract backend: what each request would answer (or how it would
fail) if issued. The aggregation functions are run against it and we track
which requests they actually issue, in order. -/
abbrev Oracle := ZTRequest → Except AxiosErr Val

/-- Source `network_members`: GET the member collection endpoint via
`getData`, wrapping any failure with its own operation message (prefixed
for Central). -/
def network_members (o : Oracle) (nwid : String) (isCentral : Bool) :
    Except JsError Val :=
  let addr := if isCentral then CENTRAL_ZT_ADDR ++ "/network/" ++ nwid ++ "/member"
              else LOCAL_ZT_ADDR ++ "/controller/network/" ++ nwid ++ "/member"
  match getData addr (o (.memberList nwid)) with
  | .ok v => .ok v
  | .error e =>
    .error (.api ((if isCentral then "[CENTRAL] " else "") ++
      "An error occurred while getting network_members") (some e))

/-- The keys produced by `Object.entries(v)`, in entry order: an object's
own keys; an array's index strings; nothing for primitives. -/
def objectKeys : Val → List String
  | .obj fields => fields.map (fun p => p.1)
  | .arr elems => (List.range elems.length).map (fun i => toString i)
  | _ => []

/-- Template-literal interpolation of a value into a URL (only the string
case arises for well-formed member records). -/
def Val.interp : Val → String
  | .null => "null"
  | .undefined => "undefined"
  | .bool b => if b then "true" else "false"
  | .num n => toString n
  | .str s => s
  | .arr _ => ""
  | .obj _ => "[object Object]"

/-- The entry list of an object value (destructuring target). -/
def Val.asObj : Val → Obj
  | .obj o => o
  | _ => []

/-- The wrapping applied by `local_network_detail`/`central_network_detail`
to any failure escaping their try block. -/
def detailWrap (pfx : String) (e : JsError) : JsError :=
  .api (pfx ++ " An error occurred while getting data from network_details function") (some e)

/-- The sequential member-detail loop of `local_network_detail`:
`for (const [memberId] of Object.entries(members)) { ... getData ...; membersArr.push(...) }`.
Returns the requests issued (the loop stops at the first thrown failure)
paired with the accumulated details or the first failure. -/
def localDetailLoop (o : Oracle) (nwid : String) :
    List String → List ZTRequest × Except JsError (List Val)
  | [] => ([], .ok [])
  | memberId :: rest =>
    match getData (LOCAL_ZT_ADDR ++ "/controller/network/" ++ nwid ++ "/member/" ++ memberId)
        (o (.memberGet nwid memberId)) with
    | .error e => ([.memberGet nwid memberId], .error e)
    | .ok v =>
      let tail := localDetailLoop o nwid rest
      (.memberGet nwid memberId :: tail.1,
       match tail.2 with
       | .ok l => .ok (v :: l)
       | .error e => .error e)

/-- Source `local_network_detail`: fetch the member list (via
`network_members`, always against the Local backend), THEN the network
record, THEN each member's detail sequentially in `Object.entries` order;
any failure aborts the whole call wrapped in the details message. The
first component is the ordered list of requests actually issued. -/
def local_network_detail (o : Oracle) (nwid : String) :
    List ZTRequest × Except JsError (Val × List Val) :=
  match network_members o nwid false with
  | .error e => ([.memberList nwid], .error (detailWrap "" e))
  | .ok membersVal =>
    match getData (LOCAL_ZT_ADDR ++ "/controller/network/" ++ nwid)
        (o (.networkGet nwid)) with
    | .error e => ([.memberList nwid, .networkGet nwid], .error (detailWrap "" e))
    | .ok network =>
      let loop := localDetailLoop o nwid (objectKeys membersVal)
      (.memberList nwid :: .networkGet nwid :: loop.1,
       match loop.2 with
       | .ok membersArr => .ok (network, membersArr)
       | .error e => .error (detailWrap "" e))

/-- Model of `Promise.all` over already-determined outcomes: succeeds with all
values iff every call succeeded, otherwise rejects with a failure. -/
def promiseAll : List (Except JsError Val) → Except JsError (List Val)
  | [] => .ok []
  | .error e :: _ => .error e
  | .ok v :: rest =>
    match promiseAll rest with
    | .ok l => .ok (v :: l)
    | .error e => .error e

/-- The network object assembled by `central_network_detail`:
`{ cidr: cidrOptions, nwid: networkId, ...restData, ...networkConfig }`
after `const { id: networkId, config: networkConfig, ...restData } = network`.
Note `cidr` is the FIRST entry of the literal, so a `cidr` key spread in
from the record shadows the candidate list. -/
def centralNetworkMerge (cidrOptions : Val) (network : Obj) : Obj :=
  let networkId := (Obj.get network "id").getD Val.undefined
  let networkConfig := (Obj.get network "config").getD Val.undefined
  let restData := restOf network
  ("cidr", cidrOptions) :: ("nwid", networkId) :: (restData ++ spreadVal networkConfig)

/-- Source `central_network_detail`: fetch the member list and the network
record, fan out one detail request per member (`Promise.all` over
`members.map`), flatten members and merge the network record with the
address-pool candidates (`cidrOptions`, the opaque result of `IPv4gen`).
Any sub-failure aborts the whole call. First component: requests issued. -/
def central_network_detail (cidrOptions : Val) (o : Oracle) (nwid : String)
    (isCentral : Bool) : List ZTRequest × Except JsError (Val × List Val) :=
  let pfx := if isCentral then "[ZT CENTRAL]" else ""
  let addr := if isCentral then CENTRAL_ZT_ADDR ++ "/network/" ++ nwid
              else LOCAL_ZT_ADDR ++ "/controller/network/" ++ nwid
  match network_members o nwid isCentral with
  | .error e => ([.memberList nwid], .error (detailWrap pfx e))
  | .ok membersVal =>
    match getData addr (o (.networkGet nwid)) with
    | .error e => ([.memberList nwid, .networkGet nwid], .error (detailWrap pfx e))
    | .ok network =>
      match membersVal with
      | .arr members =>
        let ids := members.map (fun m => ((m.asObj).get "nodeId").getD Val.undefined |>.interp)
        let outcomes := ids.map (fun mid =>
          getData (addr ++ "/member/" ++ mid) (o (.memberGet nwid mid)))
        (.memberList nwid :: .networkGet nwid :: ids.map (ZTRequest.memberGet nwid),
         match promiseAll outcomes with
         | .error e => .error (detailWrap pfx e)
         | .ok membersArr =>
           .ok (Val.obj (centralNetworkMerge cidrOptions network.asObj),
                membersArr.map (fun m => Val.obj (flattenCentralMember m.asObj))))
      | _ =>
        ([.memberList nwid, .networkGet nwid],
         .error (detailWrap pfx (.typeError "members.map is not a function")))

/-- The payload built by `network_create`:
`{ name, private: true, ...ipAssignment }` — the caller's address config
is spread LAST. -/
def networkCreatePayload (name : String) (ipAssignment : Obj) : Obj :=
  ("name", Val.str name) :: ("private", Val.bool true) :: ipAssignment

/-- The body `network_create` POSTs to Central:
`{ config: { ...payload }, description: "created with ztnet" }`. -/
def networkCreateCentralBody (name : String) (ipAssignment : Obj) : Val :=
  Val.obj [("config", Val.obj (networkCreatePayload name ipAssignment)),
           ("description", Val.str "created with ztnet")]

/-- A POST issued by the facade: its target address and body. -/
structure PostCall where
  addr : String
  body : Val
deriving Repr

/-- Source `network_create`, Central branch: POST the wrapped payload to
the networks collection endpoint, flatten the response; failures get the
prefixed create message. Returns the call issued and the result. -/
def network_create_central (ztCentralApiUrl name : String) (ipAssignment : Obj)
    (outcome : Except AxiosErr Val) : PostCall × Except JsError Obj :=
  let addr := ztCentralApiUrl ++ "/network"
  (⟨addr, networkCreateCentralBody name ipAssignment⟩,
   match postData addr outcome with
   | .ok data => .ok (flattenNetwork data.asObj)
   | .error e =>
     .error (.api "[CENTRAL] An error occurred while getting network_create" (some e)))

/-- Source `network_create`, Local branch: the raw payload is POSTed to
`{controllerAddress}______` under the local controller. -/
def network_create_local (controllerAddress name : String) (ipAssignment : Obj)
    (outcome : Except AxiosErr Val) : PostCall × Except JsError Val :=
  let addr := LOCAL_ZT_ADDR ++ "/controller/network/" ++ controllerAddress ++ "______"
  (⟨addr, Val.obj (networkCreatePayload name ipAssignment)⟩,
   match postData addr outcome with
   | .ok data => .ok data
   | .error e =>
     .error (.api "An error occurred while getting network_create" (some e)))

/-- Source `peers`: plain `axios.get`; every failure is wrapped and
rethrown like the other operations. -/
def peers (outcome : Except AxiosErr Val) : Except JsError Val :=
  match outcome with
  | .ok r => .ok r
  | .error e =>
    .error (.api "An error occurred while getting peers" (some (.axios e)))

/-- Whether a value is falsy (`!response`). -/
def Val.falsy : Val → Bool
  | .null => true
  | .undefined => true
  | .bool b => !b
  | .num n => n == 0
  | .str s => s == ""
  | _ => false

/-- Source `peer`: the one best-effort path — on ANY failure it logs
(elided here as a pure model) and RETURNS `[]` instead of rethrowing; a
falsy response body yields `{}`. -/
def peer (userZtAddress : String) (outcome : Except AxiosErr Val) :
    Except JsError Val :=
  match getData (LOCAL_ZT_ADDR ++ "/peer/" ++ userZtAddress) outcome with
  | .ok response => .ok (if response.falsy then Val.obj [] else response)
  | .error _ => .ok (Val.arr [])

/-! ## Basic lemmas about the object model -/

theorem Obj.hasKey_cons (p : String × Val) (o : Obj) (k : String) :
    Obj.hasKey (p :: o) k = (p.1 == k || Obj.hasKey o k) := by
  simp [Obj.hasKey, List.any_cons]

theorem Obj.hasKey_append (a b : Obj) (k : String) :
    Obj.hasKey (a ++ b) k = (Obj.hasKey a k || Obj.hasKey b k) := by
  simp [Obj.hasKey, List.any_append]

theorem Obj.get_isSome_eq_hasKey (o : Obj) (k : String) :
    (Obj.get o k).isSome = Obj.hasKey o k := by
  induction o with
  | nil => rfl
  | cons p rest ih =>
    obtain ⟨k0, v⟩ := p
    rw [Obj.hasKey_cons, ← ih]
    simp only [Obj.get]
    cases h : Obj.get rest k with
    | some w => simp [h]
    | none =>
      simp only [h, Option.isSome_none, Bool.or_false]
      by_cases hk : (k0 == k) = true
      · simp [hk]
      · simp [hk]

theorem Obj.get_eq_none_of_hasKey (o : Obj) (k : String)
    (h : Obj.hasKey o k = false) : Obj.get o k = none := by
  have := Obj.get_isSome_eq_hasKey o k
  rw [h] at this
  exact Option.not_isSome_iff_eq_none.mp (by simp [this])

theorem Obj.get_cons_of_some (p : String × Val) (o : Obj) (k : String) (w : Val)
    (h : Obj.get o k = some w) : Obj.get (p :: o) k = some w := by
  obtain ⟨k0, v⟩ := p
  unfold Obj.get
  rw [h]

theorem Obj.get_cons_self (k : String) (v : Val) (o : Obj)
    (h : Obj.hasKey o k = false) : Obj.get ((k, v) :: o) k = some v := by
  unfold Obj.get
  rw [Obj.get_eq_none_of_hasKey o k h]
  simp

theorem Obj.get_append_of_some (a b : Obj) (k : String) (w : Val)
    (h : Obj.get b k = some w) : Obj.get (a ++ b) k = some w := by
  induction a with
  | nil => simpa using h
  | cons p rest ih => exact Obj.get_cons_of_some p (rest ++ b) k w ih

theorem Obj.get_append_of_none (a b : Obj) (k : String)
    (h : Obj.get b k = none) : Obj.get (a ++ b) k = Obj.get a k := by
  induction a with
  | nil => simpa using h
  | cons p rest ih =>
    obtain ⟨k0, v⟩ := p
    show Obj.get ((k0, v) :: (rest ++ b)) k = Obj.get ((k0, v) :: rest) k
    unfold Obj.get
    rw [ih]

theorem restOf_id_false (o : Obj) : Obj.hasKey (restOf o) "id" = false := by
  rw [Bool.eq_false_iff]
  intro h
  simp only [Obj.hasKey, List.any_eq_true, restOf, List.mem_filter] at h
  obtain ⟨p, ⟨_, hkeep⟩, hk⟩ := h
  rw [beq_iff_eq] at hk
  simp [hk] at hkeep

theorem restOf_config_false (o : Obj) : Obj.hasKey (restOf o) "config" = false := by
  rw [Bool.eq_false_iff]
  intro h
  simp only [Obj.hasKey, List.any_eq_true, restOf, List.mem_filter] at h
  obtain ⟨p, ⟨_, hkeep⟩, hk⟩ := h
  rw [beq_iff_eq] at hk
  simp [hk] at hkeep

theorem flattenCentralMember_eq (member c : Obj) (idv : Val)
    (hid : Obj.get member "id" = some idv)
    (hcfg : Obj.get member "config" = some (Val.obj c)) :
    flattenCentralMember member = ("nodeId", idv) :: (c ++ restOf member) := by
  simp [flattenCentralMember, hid, hcfg, spreadVal]

theorem flattenNetwork_eq (network c : Obj) (idv : Val)
    (hid : Obj.get network "id" = some idv)
    (hcfg : Obj.get network "config" = some (Val.obj c)) :
    flattenNetwork network = ("nwid", idv) :: (c ++ restOf network) := by
  simp [flattenNetwork, hid, hcfg, spreadVal]

/-- Shared shape lemma: a record `ident :: (c ++ rest)` has the identifier
at `ident` when neither part shadows it, has exactly the union key set, and
no key that is absent from both parts and differs from the identifier. -/
theorem wire_flatten_shape (ident : String) (idv : Val) (c rest : Obj)
    (hc : Obj.hasKey c ident = false) (hr : Obj.hasKey rest ident = false) :
    Obj.get ((ident, idv) :: (c ++ rest)) ident = some idv
    ∧ (∀ k, Obj.hasKey ((ident, idv) :: (c ++ rest)) k = true ↔
        (k = ident ∨ Obj.hasKey c k = true ∨ Obj.hasKey rest k = true)) := by
  constructor
  · apply Obj.get_cons_self
    rw [Obj.hasKey_append, hc, hr]
    rfl
  · intro k
    rw [Obj.hasKey_cons, Obj.hasKey_append]
    simp only [Bool.or_eq_true, beq_iff_eq]
    constructor
    · rintro (h | h | h)
      · exact Or.inl h.symm
      · exact Or.inr (Or.inl h)
      · exact Or.inr (Or.inr h)
    · rintro (h | h | h)
      · exact Or.inl h.symm
      · exact Or.inr (Or.inl h)
      · exact Or.inr (Or.inr h)

/-- C1: on a wire-shaped record (identifier present, `config` an object
none of whose keys — nor any remaining top-level key — collides with the
canonical identifier or the `id`/`config` wrapper keys), each single-record
flattener keeps the identifier, produces exactly the union key set, and
leaves no residual `id`/`config` key. -/
theorem flatten_identifier_and_keys
    (member mc network nc : Obj) (midv nidv : Val)
    (hmid : Obj.get member "id" = some midv)
    (hmcfg : Obj.get member "config" = some (Val.obj mc))
    (hmcNode : Obj.hasKey mc "nodeId" = false)
    (hmrNode : Obj.hasKey (restOf member) "nodeId" = false)
    (hmcId : Obj.hasKey mc "id" = false)
    (hmcCfg : Obj.hasKey mc "config" = false)
    (hnid : Obj.get network "id" = some nidv)
    (hncfg : Obj.get network "config" = some (Val.obj nc))
    (hncNwid : Obj.hasKey nc "nwid" = false)
    (hnrNwid : Obj.hasKey (restOf network) "nwid" = false)
    (hncId : Obj.hasKey nc "id" = false)
    (hncCfg : Obj.hasKey nc "config" = false) :
    (Obj.get (flattenCentralMember member) "nodeId" = some midv
     ∧ (∀ k, Obj.hasKey (flattenCentralMember member) k = true ↔
         (k = "nodeId" ∨ Obj.hasKey mc k = true ∨ Obj.hasKey (restOf member) k = true))
     ∧ Obj.hasKey (flattenCentralMember member) "id" = false
     ∧ Obj.hasKey (flattenCentralMember member) "config" = false)
    ∧ (Obj.get (flattenNetwork network) "nwid" = some nidv
     ∧ (∀ k, Obj.hasKey (flattenNetwork network) k = true ↔
         (k = "nwid" ∨ Obj.hasKey nc k = true ∨ Obj.hasKey (restOf network) k = true))
     ∧ Obj.hasKey (flattenNetwork network) "id" = false
     ∧ Obj.hasKey (flattenNetwork network) "config" = false) := by
  rw [flattenCentralMember_eq member mc midv hmid hmcfg,
      flattenNetwork_eq network nc nidv hnid hncfg]
  obtain ⟨hm1, hm2⟩ := wire_flatten_shape "nodeId" midv mc (restOf member) hmcNode hmrNode
  obtain ⟨hn1, hn2⟩ := wire_flatten_shape "nwid" nidv nc (restOf network) hncNwid hnrNwid
  refine ⟨⟨hm1, hm2, ?_, ?_⟩, hn1, hn2, ?_, ?_⟩
  · rw [Obj.hasKey_cons, Obj.hasKey_append, hmcId, restOf_id_false]
    rfl
  · rw [Obj.hasKey_cons, Obj.hasKey_append, hmcCfg, restOf_config_false]
    rfl
  · rw [Obj.hasKey_cons, Obj.hasKey_append, hncId, restOf_id_false]
    rfl
  · rw [Obj.hasKey_cons, Obj.hasKey_append, hncCfg, restOf_config_false]
    rfl

/-- C1 witness: the theorem applied to one concrete member and network. -/
theorem flatten_identifier_and_keys_witness :
    Obj.get (flattenCentralMember
      [("id", Val.str "ab12cd34ef"),
       ("config", Val.obj [("authorized", Val.bool true)]),
       ("clock", Val.num 17)]) "nodeId" = some (Val.str "ab12cd34ef")
    ∧ Obj.hasKey (flattenCentralMember
      [("id", Val.str "ab12cd34ef"),
       ("config", Val.obj [("authorized", Val.bool true)]),
       ("clock", Val.num 17)]) "config" = false
    ∧ Obj.get (flattenNetwork
      [("id", Val.str "8056c2e21c000001"),
       ("config", Val.obj [("name", Val.str "lab")]),
       ("description", Val.str "d")]) "nwid" = some (Val.str "8056c2e21c000001") := by
  obtain ⟨⟨a1, _, _, a4⟩, b1, _⟩ := flatten_identifier_and_keys
    [("id", Val.str "ab12cd34ef"),
     ("config", Val.obj [("authorized", Val.bool true)]),
     ("clock", Val.num 17)]
    [("authorized", Val.bool true)]
    [("id", Val.str "8056c2e21c000001"),
     ("config", Val.obj [("name", Val.str "lab")]),
     ("description", Val.str "d")]
    [("name", Val.str "lab")]
    (Val.str "ab12cd34ef") (Val.str "8056c2e21c000001")
    rfl rfl rfl rfl rfl rfl rfl rfl rfl rfl rfl rfl
  exact ⟨a1, a4, b1⟩

/-- C2 counterexample: a member whose `config` and remaining top-level
fields share the key `"activeBridge"` — the flattened record takes the
TOP-LEVEL value (the `...otherProps` spread comes after `...config`), not
the config value the claim promises. -/
theorem config_wins_counterexample :
    Obj.get (flattenCentralMember
      [("id", Val.str "ab12cd34ef"),
       ("config", Val.obj [("activeBridge", Val.bool true)]),
       ("activeBridge", Val.bool false)]) "activeBridge"
      = some (Val.bool false)
    ∧ some (Val.bool false) ≠ some (Val.bool true) := by
  refine ⟨rfl, ?_⟩
  simp

/-- C2 as amended: when `config` and the remaining top-level fields share a
key, `flattenCentralMember` and `flattenNetwork` resolve it to the
TOP-LEVEL value (config is spread first), while the network merge inside
`central_network_detail` resolves it to the CONFIG value (config is spread
last there). -/
theorem collision_resolution
    (member mc network nc net2 nc2 : Obj) (cands : Val) (k : String)
    (hmcfg : Obj.get member "config" = some (Val.obj mc))
    (hmKey : Obj.hasKey mc k = true)
    (hmRest : Obj.hasKey (restOf member) k = true)
    (hncfg : Obj.get network "config" = some (Val.obj nc))
    (hnKey : Obj.hasKey nc k = true)
    (hnRest : Obj.hasKey (restOf network) k = true)
    (h2cfg : Obj.get net2 "config" = some (Val.obj nc2))
    (h2Key : Obj.hasKey nc2 k = true) :
    Obj.get (flattenCentralMember member) k = Obj.get (restOf member) k
    ∧ Obj.get (flattenNetwork network) k = Obj.get (restOf network) k
    ∧ Obj.get (centralNetworkMerge cands net2) k = Obj.get nc2 k := by
  obtain ⟨w1, hw1⟩ := Option.isSome_iff_exists.mp
    (by rw [Obj.get_isSome_eq_hasKey]; exact hmRest)
  obtain ⟨w2, hw2⟩ := Option.isSome_iff_exists.mp
    (by rw [Obj.get_isSome_eq_hasKey]; exact hnRest)
  obtain ⟨w3, hw3⟩ := Option.isSome_iff_exists.mp
    (by rw [Obj.get_isSome_eq_hasKey]; exact h2Key)
  refine ⟨?_, ?_, ?_⟩
  · rw [hw1]
    simp only [flattenCentralMember, hmcfg, Option.getD_some, spreadVal]
    exact Obj.get_cons_of_some _ _ k w1 (Obj.get_append_of_some mc _ k w1 hw1)
  · rw [hw2]
    simp only [flattenNetwork, hncfg, Option.getD_some, spreadVal]
    exact Obj.get_cons_of_some _ _ k w2 (Obj.get_append_of_some nc _ k w2 hw2)
  · rw [hw3]
    simp only [centralNetworkMerge, h2cfg, Option.getD_some, spreadVal]
    exact Obj.get_cons_of_some _ _ k w3
      (Obj.get_cons_of_some _ _ k w3 (Obj.get_append_of_some (restOf net2) nc2 k w3 hw3))

/-- C2 witness: the amended collision rule at concrete colliding records. -/
theorem collision_resolution_witness :
    Obj.get (flattenCentralMember
      [("id", Val.str "m"), ("config", Val.obj [("x", Val.num 1)]), ("x", Val.num 2)]) "x"
      = Obj.get (restOf
          [("id", Val.str "m"), ("config", Val.obj [("x", Val.num 1)]), ("x", Val.num 2)]) "x"
    ∧ Obj.get (flattenNetwork
      [("id", Val.str "n"), ("config", Val.obj [("x", Val.num 3)]), ("x", Val.num 4)]) "x"
      = Obj.get (restOf
          [("id", Val.str "n"), ("config", Val.obj [("x", Val.num 3)]), ("x", Val.num 4)]) "x"
    ∧ Obj.get (centralNetworkMerge Val.null
          [("id", Val.str "n2"), ("config", Val.obj [("x", Val.num 5)])]) "x"
      = Obj.get [("x", Val.num 5)] "x" :=
  collision_resolution
    [("id", Val.str "m"), ("config", Val.obj [("x", Val.num 1)]), ("x", Val.num 2)]
    [("x", Val.num 1)]
    [("id", Val.str "n"), ("config", Val.obj [("x", Val.num 3)]), ("x", Val.num 4)]
    [("x", Val.num 3)]
    [("id", Val.str "n2"), ("config", Val.obj [("x", Val.num 5)])]
    [("x", Val.num 5)]
    Val.null "x" rfl rfl rfl rfl rfl rfl rfl rfl

/-- C3 counterexample: on `null` input (`none`), `flattenNetworks` does NOT
return the empty sequence — the unguarded `networks.map` throws. -/
theorem flattenNetworks_null_counterexample :
    flattenNetworks none ≠ Except.ok ([] : List Obj)
    ∧ flattenNetworks none
      = Except.error (.typeError "Cannot read properties of null (reading map)") := by
  refine ⟨?_, rfl⟩
  intro h
  exact Except.noConfusion h

/-- C3 as amended: `flattenCentralMembers` returns the empty sequence on
`null` and on empty input and never fails; `flattenNetworks` maps an empty
input to an empty output but FAILS on `null` input (no guard). -/
theorem flatten_sequences_spec :
    flattenCentralMembers none = []
    ∧ flattenCentralMembers (some []) = []
    ∧ (∀ ms : List Obj, flattenCentralMembers (some ms) = ms.map flattenCentralMember)
    ∧ flattenNetworks (some []) = Except.ok []
    ∧ ∃ e, flattenNetworks none = Except.error e :=
  ⟨rfl, rfl, fun _ => rfl, rfl, _, rfl⟩

/-- C4 counterexample: a 401 on a POST does NOT surface as the
InvalidCredentials error (`"Invalid API Key"`) — `postData` wraps every
failure in its one generic transport message. -/
theorem post_taxonomy_counterexample :
    postData "https://api.zerotier.com/api/v1/network" (.error (.status 401))
      = Except.error (.api
          "An error occurred while posting data to https://api.zerotier.com/api/v1/network"
          (some (.axios (.status 401))))
    ∧ "An error occurred while posting data to https://api.zerotier.com/api/v1/network"
        ≠ "Invalid API Key" := by
  refine ⟨rfl, ?_⟩
  decide

/-- C4 as amended: only GET (`getData`) maps 401 to InvalidCredentials and
404 to NotFound, with every other failure becoming the generic transport
error carrying the original cause; POST (`postData`) and DELETE
(`network_delete`) wrap EVERY failure — 401 and 404 included — in their
generic operation message carrying the original cause. -/
theorem transport_error_taxonomy (addr : String) (e e' : AxiosErr) (b : Bool)
    (h1 : statusOf e ≠ some 401) (h2 : statusOf e ≠ some 404) :
    getData addr (.error (.status 401))
      = Except.error (.api "Invalid API Key" (some (.axios (.status 401))))
    ∧ getData addr (.error (.status 404))
      = Except.error (.api "Endpoint Not Found" (some (.axios (.status 404))))
    ∧ getData addr (.error e)
      = Except.error (.api ("An error occurred fetching data from " ++ addr)
          (some (.axios e)))
    ∧ postData addr (.error e')
      = Except.error (.api ("An error occurred while posting data to " ++ addr)
          (some (.axios e')))
    ∧ network_delete b (.error e')
      = Except.error (.api ((if b then "[CENTRAL] " else "") ++
          "An error occurred while getting network_delete") (some (.axios e'))) := by
  refine ⟨rfl, rfl, ?_, rfl, rfl⟩
  simp only [getData]
  rw [if_neg h1, if_neg h2]

/-- C4 witness: the amended taxonomy applied at a concrete address, a
network-level GET failure, and a 401 on POST/DELETE. -/
theorem transport_error_taxonomy_witness :
    getData "http://127.0.0.1:9993/status" (.error .network)
      = Except.error (.api
          "An error occurred fetching data from http://127.0.0.1:9993/status"
          (some (.axios .network)))
    ∧ postData "http://127.0.0.1:9993/status" (.error (.status 401))
      = Except.error (.api
          "An error occurred while posting data to http://127.0.0.1:9993/status"
          (some (.axios (.status 401))))
    ∧ network_delete true (.error (.status 401))
      = Except.error (.api "[CENTRAL] An error occurred while getting network_delete"
          (some (.axios (.status 401)))) := by
  obtain ⟨_, _, g3, g4, g5⟩ := transport_error_taxonomy "http://127.0.0.1:9993/status"
    .network (.status 401) true (by decide) (by decide)
  exact ⟨g3, g4, g5⟩

/-- The value inside a successful outcome (`undefined` placeholder
otherwise; only used under success hypotheses). -/
def okD : Except AxiosErr Val → Val
  | .ok v => v
  | .error _ => Val.undefined

theorem exists_error_of_isOk_false {ε α : Type} (x : Except ε α)
    (h : x.isOk = false) : ∃ e, x = Except.error e := by
  cases x with
  | ok v => exact absurd h (by simp [Except.isOk, Except.toBool])
  | error e => exact ⟨e, rfl⟩

theorem getData_error (addr : String) (e : AxiosErr) :
    ∃ e', getData addr (.error e) = Except.error e' := by
  simp only [getData]
  split
  · exact ⟨_, rfl⟩
  · split
    · exact ⟨_, rfl⟩
    · exact ⟨_, rfl⟩

theorem getData_isOk (addr : String) (out : Except AxiosErr Val) :
    (getData addr out).isOk = out.isOk := by
  cases out with
  | ok v => rfl
  | error e =>
    simp only [getData]
    split
    · rfl
    · split
      · rfl
      · rfl

theorem network_members_ok (o : Oracle) (nwid : String) (b : Bool) (v : Val)
    (h : o (.memberList nwid) = .ok v) : network_members o nwid b = .ok v := by
  simp [network_members, h, getData]

theorem localDetailLoop_ok (o : Oracle) (nwid : String) (ks : List String)
    (h : ∀ k ∈ ks, (o (.memberGet nwid k)).isOk = true) :
    localDetailLoop o nwid ks
      = (ks.map (ZTRequest.memberGet nwid),
         Except.ok (ks.map (fun k => okD (o (.memberGet nwid k))))) := by
  induction ks with
  | nil => rfl
  | cons k ks ih =>
    have hk : (o (.memberGet nwid k)).isOk = true := h k (List.mem_cons_self k ks)
    cases ho : o (.memberGet nwid k) with
    | error e =>
      rw [ho] at hk
      exact absurd hk (by simp [Except.isOk, Except.toBool])
    | ok v =>
      have ih' := ih (fun k' hk' => h k' (List.mem_cons_of_mem k hk'))
      simp only [localDetailLoop, ho, getData, ih', List.map_cons, okD]

theorem localDetailLoop_err (o : Oracle) (nwid : String) (ks : List String)
    (h : ∃ k ∈ ks, (o (.memberGet nwid k)).isOk = false) :
    ∃ e, (localDetailLoop o nwid ks).2 = Except.error e := by
  induction ks with
  | nil => simp at h
  | cons k ks ih =>
    cases ho : o (.memberGet nwid k) with
    | error e =>
      obtain ⟨e', he'⟩ := getData_error
        (LOCAL_ZT_ADDR ++ "/controller/network/" ++ nwid ++ "/member/" ++ k) e
      refine ⟨e', ?_⟩
      simp only [localDetailLoop, ho, he']
    | ok v =>
      obtain ⟨k', hk', hfail⟩ := h
      cases List.mem_cons.mp hk' with
      | inl heq =>
        subst heq
        rw [ho] at hfail
        exact absurd hfail (by simp [Except.isOk, Except.toBool])
      | inr hmem =>
        obtain ⟨e, he⟩ := ih ⟨k', hmem, hfail⟩
        refine ⟨e, ?_⟩
        simp only [localDetailLoop, ho, getData]
        rw [he]

/-- A concrete backend with one member whose every fetch succeeds, used to
exhibit the order in which `local_network_detail` issues its requests. -/
def c5oracle : Oracle
  | .memberList _ => .ok (Val.obj [("ab12cd34ef", Val.num 1)])
  | .networkGet _ => .ok (Val.obj [("id", Val.str "net1")])
  | .memberGet _ _ => .ok (Val.obj [("id", Val.str "ab12cd34ef")])

/-- C5 counterexample: `local_network_detail` fetches the NETWORK record
immediately after the member-id list and BEFORE the member details, not
after them as the claim orders the calls. -/
theorem local_detail_order_counterexample :
    (local_network_detail c5oracle "net1").1
      = [ZTRequest.memberList "net1", ZTRequest.networkGet "net1",
         ZTRequest.memberGet "net1" "ab12cd34ef"]
    ∧ (local_network_detail c5oracle "net1").1
      ≠ [ZTRequest.memberList "net1", ZTRequest.memberGet "net1" "ab12cd34ef",
         ZTRequest.networkGet "net1"] := by
  refine ⟨rfl, ?_⟩
  decide

/-- C5 as amended: `local_network_detail` fetches the member-id list, then
the network record, then exactly one detail per entry of the list
sequentially in `Object.entries` order; if all detail fetches succeed it
returns the network with the details in that order, and if any detail
fetch fails the whole call fails — every previously fetched detail is
discarded and no partial result is returned. -/
theorem local_detail_spec (o : Oracle) (nwid : String) (fields : Obj) (network : Val)
    (h1 : o (.memberList nwid) = .ok (Val.obj fields))
    (h2 : o (.networkGet nwid) = .ok network) :
    ((∀ k ∈ objectKeys (Val.obj fields), (o (.memberGet nwid k)).isOk = true) →
      local_network_detail o nwid
        = (ZTRequest.memberList nwid :: ZTRequest.networkGet nwid ::
             (objectKeys (Val.obj fields)).map (ZTRequest.memberGet nwid),
           Except.ok (network,
             (objectKeys (Val.obj fields)).map (fun k => okD (o (.memberGet nwid k))))))
    ∧ ((∃ k ∈ objectKeys (Val.obj fields), (o (.memberGet nwid k)).isOk = false) →
      ∃ e, (local_network_detail o nwid).2 = Except.error e) := by
  have hm := network_members_ok o nwid false (Val.obj fields) h1
  constructor
  · intro hall
    have hloop := localDetailLoop_ok o nwid (objectKeys (Val.obj fields)) hall
    simp only [local_network_detail, hm, h2, getData, hloop]
  · intro hex
    obtain ⟨e, he⟩ := localDetailLoop_err o nwid (objectKeys (Val.obj fields)) hex
    simp only [local_network_detail, hm, h2, getData]
    rw [he]
    exact ⟨_, rfl⟩

/-- C5 witness: the amended behavior at the concrete one-member backend. -/
theorem local_detail_spec_witness :
    local_network_detail c5oracle "net1"
      = ([ZTRequest.memberList "net1", ZTRequest.networkGet "net1",
          ZTRequest.memberGet "net1" "ab12cd34ef"],
         Except.ok (Val.obj [("id", Val.str "net1")],
           [Val.obj [("id", Val.str "ab12cd34ef")]])) :=
  (local_detail_spec c5oracle "net1" [("ab12cd34ef", Val.num 1)]
    (Val.obj [("id", Val.str "net1")]) rfl rfl).1 (by decide)

theorem getData_ok (addr : String) (v : Val) : getData addr (.ok v) = .ok v := rfl

theorem promiseAll_error (l : List (Except JsError Val))
    (h : ∃ x ∈ l, x.isOk = false) :
    ∃ e, promiseAll l = Except.error e := by
  induction l with
  | nil => simp at h
  | cons x xs ih =>
    cases x with
    | error e => exact ⟨e, rfl⟩
    | ok v =>
      obtain ⟨y, hy, hfail⟩ := h
      cases List.mem_cons.mp hy with
      | inl heq =>
        subst heq
        exact absurd hfail (by simp [Except.isOk, Except.toBool])
      | inr hmem =>
        obtain ⟨e, he⟩ := ih ⟨y, hmem, hfail⟩
        refine ⟨e, ?_⟩
        simp only [promiseAll]
        rw [he]

/-- C6: once the member list (N members) and the network record have been
fetched, `central_network_detail` issues exactly one member-detail request
per member — the full fan-out is issued as a unit — and if any one of the
detail fetches fails the whole aggregate call fails: no member list or
partial result is returned. -/
theorem central_detail_fanout (cands : Val) (o : Oracle) (nwid : String)
    (members : List Val) (network : Val) (central : Bool)
    (h1 : o (.memberList nwid) = .ok (Val.arr members))
    (h2 : o (.networkGet nwid) = .ok network) :
    (central_network_detail cands o nwid central).1
      = ZTRequest.memberList nwid :: ZTRequest.networkGet nwid ::
          (members.map (fun m => (((m.asObj).get "nodeId").getD Val.undefined).interp)).map
            (ZTRequest.memberGet nwid)
    ∧ ((∃ m ∈ members,
          (o (.memberGet nwid
            (((m.asObj).get "nodeId").getD Val.undefined).interp)).isOk = false) →
      ∃ e, (central_network_detail cands o nwid central).2 = Except.error e) := by
  have hm := network_members_ok o nwid central (Val.arr members) h1
  constructor
  · simp only [central_network_detail, hm, h2, getData_ok]
  · intro hex
    obtain ⟨m, hmem, hfail⟩ := hex
    have hout : ∃ x ∈ (members.map
        (fun m => (((m.asObj).get "nodeId").getD Val.undefined).interp)).map
          (fun mid => getData
            ((if central then CENTRAL_ZT_ADDR ++ "/network/" ++ nwid
              else LOCAL_ZT_ADDR ++ "/controller/network/" ++ nwid) ++ "/member/" ++ mid)
            (o (.memberGet nwid mid))), x.isOk = false := by
      refine ⟨_, List.mem_map_of_mem _ (List.mem_map_of_mem
        (fun m => (((m.asObj).get "nodeId").getD Val.undefined).interp) hmem), ?_⟩
      rw [getData_isOk]
      exact hfail
    obtain ⟨e, he⟩ := promiseAll_error _ hout
    simp only [central_network_detail, hm, h2, getData_ok]
    rw [he]
    exact ⟨_, rfl⟩

/-- A concrete backend with two members where the second member-detail
fetch fails. -/
def c6oracle : Oracle
  | .memberList _ => .ok (Val.arr
      [Val.obj [("nodeId", Val.str "aaaaaaaaaa")],
       Val.obj [("nodeId", Val.str "bbbbbbbbbb")]])
  | .networkGet _ => .ok (Val.obj [("id", Val.str "net1")])
  | .memberGet _ mid =>
      if mid == "bbbbbbbbbb" then .error (.status 500)
      else .ok (Val.obj [("id", Val.str "aaaaaaaaaa")])

/-- C6 witness: both detail requests are issued (one per member) and the
one failure makes the whole aggregate call fail. -/
theorem central_detail_fanout_witness :
    (central_network_detail Val.null c6oracle "net1" true).1
      = [ZTRequest.memberList "net1", ZTRequest.networkGet "net1",
         ZTRequest.memberGet "net1" "aaaaaaaaaa", ZTRequest.memberGet "net1" "bbbbbbbbbb"]
    ∧ ∃ e, (central_network_detail Val.null c6oracle "net1" true).2 = Except.error e := by
  obtain ⟨htrace, herr⟩ := central_detail_fanout Val.null c6oracle "net1"
    [Val.obj [("nodeId", Val.str "aaaaaaaaaa")], Val.obj [("nodeId", Val.str "bbbbbbbbbb")]]
    (Val.obj [("id", Val.str "net1")]) true rfl rfl
  exact ⟨htrace, herr ⟨Val.obj [("nodeId", Val.str "bbbbbbbbbb")],
    List.mem_cons_of_mem _ (List.mem_cons_self _ _), by decide⟩⟩

/-- A concrete Central backend with no members whose network record's
`config` carries its own `cidr` key. -/
def c7oracle : Oracle
  | .memberList _ => .ok (Val.arr [])
  | .networkGet _ => .ok (Val.obj
      [("id", Val.str "net1"), ("config", Val.obj [("cidr", Val.str "10.0.0.0/8")])])
  | .memberGet _ _ => .error .network

/-- C7 counterexample: when the fetched record's `config` carries a `cidr`
key, the network object returned by `central_network_detail` resolves
`cidr` to the RECORD's value, not to the supplied address-pool candidates:
the candidate entry is written first and the config spread shadows it. -/
theorem central_cidr_counterexample :
    (central_network_detail (Val.arr [Val.str "172.25.0.0/16"]) c7oracle "net1" true).2
      = Except.ok (Val.obj
          [("cidr", Val.arr [Val.str "172.25.0.0/16"]),
           ("nwid", Val.str "net1"),
           ("cidr", Val.str "10.0.0.0/8")], [])
    ∧ Obj.get
        [("cidr", Val.arr [Val.str "172.25.0.0/16"]),
         ("nwid", Val.str "net1"),
         ("cidr", Val.str "10.0.0.0/8")] "cidr"
      = some (Val.str "10.0.0.0/8")
    ∧ some (Val.str "10.0.0.0/8") ≠ some (Val.arr [Val.str "172.25.0.0/16"]) := by
  refine ⟨rfl, rfl, ?_⟩
  intro h
  exact Val.noConfusion (Option.some.inj h)

/-- C7 as amended: the `cidr` entry carrying the address-pool candidates is
written FIRST in the merged network object, so the returned `cidr` equals
the candidate list only when neither the record's `config` nor its other
top-level fields carry a `cidr` key; a `config` `cidr` key wins instead. -/
theorem central_cidr_overlay (cands : Val) (network nc : Obj)
    (hcfg : Obj.get network "config" = some (Val.obj nc)) :
    (Obj.hasKey nc "cidr" = false → Obj.hasKey (restOf network) "cidr" = false →
      Obj.get (centralNetworkMerge cands network) "cidr" = some cands)
    ∧ (Obj.hasKey nc "cidr" = true →
      Obj.get (centralNetworkMerge cands network) "cidr" = Obj.get nc "cidr") := by
  constructor
  · intro h1 h2
    simp only [centralNetworkMerge, hcfg, Option.getD_some, spreadVal]
    apply Obj.get_cons_self
    rw [Obj.hasKey_cons, Obj.hasKey_append, h1, h2]
    rfl
  · intro h1
    obtain ⟨w, hw⟩ := Option.isSome_iff_exists.mp
      (by rw [Obj.get_isSome_eq_hasKey]; exact h1)
    rw [hw]
    simp only [centralNetworkMerge, hcfg, Option.getD_some, spreadVal]
    exact Obj.get_cons_of_some _ _ _ w
      (Obj.get_cons_of_some _ _ _ w (Obj.get_append_of_some (restOf network) nc _ w hw))

/-- C7 witness: both branches of the amended overlay rule at concrete
records. -/
theorem central_cidr_overlay_witness :
    Obj.get (centralNetworkMerge (Val.arr [Val.str "172.25.0.0/16"])
        [("id", Val.str "a"), ("config", Val.obj [("name", Val.str "lab")])]) "cidr"
      = some (Val.arr [Val.str "172.25.0.0/16"])
    ∧ Obj.get (centralNetworkMerge (Val.arr [Val.str "172.25.0.0/16"])
        [("id", Val.str "a"), ("config", Val.obj [("cidr", Val.str "10.0.0.0/8")])]) "cidr"
      = Obj.get [("cidr", Val.str "10.0.0.0/8")] "cidr" :=
  ⟨(central_cidr_overlay (Val.arr [Val.str "172.25.0.0/16"])
      [("id", Val.str "a"), ("config", Val.obj [("name", Val.str "lab")])]
      [("name", Val.str "lab")] rfl).1 rfl rfl,
   (central_cidr_overlay (Val.arr [Val.str "172.25.0.0/16"])
      [("id", Val.str "a"), ("config", Val.obj [("cidr", Val.str "10.0.0.0/8")])]
      [("cidr", Val.str "10.0.0.0/8")] rfl).2 rfl⟩

/-- C8: creating a network named `"lab"` against Central with address
config `{ipPool: ["10.0.0.0/24"]}` POSTs exactly
`{config: {name: "lab", private: true, ipPool: ["10.0.0.0/24"]}, description: "created with ztnet"}`
to the networks collection endpoint, and — for a response whose `config`
echoes the name and whose other keys do not shadow `nwid`/`name` — returns
the flattened record with `nwid` equal to the response's `id` and `name`
equal to `"lab"`. -/
theorem network_create_central_lab (url : String) (response c : Obj) (idv : Val)
    (hid : Obj.get response "id" = some idv)
    (hcfg : Obj.get response "config" = some (Val.obj c))
    (hname : Obj.get c "name" = some (Val.str "lab"))
    (hrestName : Obj.hasKey (restOf response) "name" = false)
    (hcNwid : Obj.hasKey c "nwid" = false)
    (hrestNwid : Obj.hasKey (restOf response) "nwid" = false) :
    (network_create_central url "lab" [("ipPool", Val.arr [Val.str "10.0.0.0/24"])]
        (.ok (Val.obj response))).1
      = ⟨url ++ "/network",
         Val.obj [("config", Val.obj
             [("name", Val.str "lab"), ("private", Val.bool true),
              ("ipPool", Val.arr [Val.str "10.0.0.0/24"])]),
           ("description", Val.str "created with ztnet")]⟩
    ∧ (network_create_central url "lab" [("ipPool", Val.arr [Val.str "10.0.0.0/24"])]
        (.ok (Val.obj response))).2
      = Except.ok (flattenNetwork response)
    ∧ Obj.get (flattenNetwork response) "nwid" = some idv
    ∧ Obj.get (flattenNetwork response) "name" = some (Val.str "lab") := by
  refine ⟨rfl, rfl, ?_, ?_⟩
  · rw [flattenNetwork_eq response c idv hid hcfg]
    apply Obj.get_cons_self
    rw [Obj.hasKey_append, hcNwid, hrestNwid]
    rfl
  · rw [flattenNetwork_eq response c idv hid hcfg]
    have hrnone : Obj.get (restOf response) "name" = none :=
      Obj.get_eq_none_of_hasKey _ _ hrestName
    exact Obj.get_cons_of_some _ _ _ _
      (by rw [Obj.get_append_of_none c (restOf response) "name" hrnone]; exact hname)

/-- C8 witness: the scenario at a concrete response whose backend echoes
the created config. -/
theorem network_create_central_lab_witness :
    (network_create_central "https://api.zerotier.com/api/v1" "lab"
        [("ipPool", Val.arr [Val.str "10.0.0.0/24"])]
        (.ok (Val.obj
          [("id", Val.str "8056c2e21c000001"),
           ("config", Val.obj [("name", Val.str "lab"), ("private", Val.bool true)]),
           ("description", Val.str "created with ztnet")]))).1
      = ⟨"https://api.zerotier.com/api/v1/network",
         Val.obj [("config", Val.obj
             [("name", Val.str "lab"), ("private", Val.bool true),
              ("ipPool", Val.arr [Val.str "10.0.0.0/24"])]),
           ("description", Val.str "created with ztnet")]⟩
    ∧ Obj.get (flattenNetwork
        [("id", Val.str "8056c2e21c000001"),
         ("config", Val.obj [("name", Val.str "lab"), ("private", Val.bool true)]),
         ("description", Val.str "created with ztnet")]) "nwid"
      = some (Val.str "8056c2e21c000001")
    ∧ Obj.get (flattenNetwork
        [("id", Val.str "8056c2e21c000001"),
         ("config", Val.obj [("name", Val.str "lab"), ("private", Val.bool true)]),
         ("description", Val.str "created with ztnet")]) "name"
      = some (Val.str "lab") := by
  obtain ⟨hpost, _, hnwid, hname⟩ := network_create_central_lab
    "https://api.zerotier.com/api/v1"
    [("id", Val.str "8056c2e21c000001"),
     ("config", Val.obj [("name", Val.str "lab"), ("private", Val.bool true)]),
     ("description", Val.str "created with ztnet")]
    [("name", Val.str "lab"), ("private", Val.bool true)]
    (Val.str "8056c2e21c000001") rfl rfl rfl rfl rfl rfl
  exact ⟨hpost, hnwid, hname⟩

/-- C9: `peer` never propagates an error — every outcome yields a normal
return; on any failure it returns the empty result `[]` — while `peers`
(like every other operation) wraps and rethrows its failures. -/
theorem peer_swallows_errors (a : String) (o : Except AxiosErr Val) :
    (peer a o).isOk = true
    ∧ (∀ e : AxiosErr, peer a (.error e) = Except.ok (Val.arr []))
    ∧ (∀ e : AxiosErr, peers (.error e)
        = Except.error (.api "An error occurred while getting peers"
            (some (.axios e)))) := by
  refine ⟨?_, ?_, fun e => rfl⟩
  · cases o with
    | ok v => rfl
    | error e =>
      obtain ⟨e', he'⟩ := getData_error (LOCAL_ZT_ADDR ++ "/peer/" ++ a) e
      simp only [peer, he']
      rfl
  · intro e
    obtain ⟨e', he'⟩ := getData_error (LOCAL_ZT_ADDR ++ "/peer/" ++ a) e
    simp only [peer, he']

/-- C10: `network_create` builds `{name, private: true, ...ipAssignment}`
with the caller's address config spread last, so the payload's `private`
entry is the forced `true` exactly when the caller supplies no `private`
key and is the caller's value otherwise (ditto `name`); this payload is
what is sent to either backend (wrapped under `config` for Central, raw
for Local). -/
theorem create_payload_spread_last (name : String) (ipAssignment : Obj) :
    Obj.get (networkCreatePayload name ipAssignment) "private"
      = (if Obj.hasKey ipAssignment "private" = true
         then Obj.get ipAssignment "private" else some (Val.bool true))
    ∧ Obj.get (networkCreatePayload name ipAssignment) "name"
      = (if Obj.hasKey ipAssignment "name" = true
         then Obj.get ipAssignment "name" else some (Val.str name))
    ∧ (∀ url out, (network_create_central url name ipAssignment out).1.body
        = networkCreateCentralBody name ipAssignment)
    ∧ (∀ ctrl out, (network_create_local ctrl name ipAssignment out).1.body
        = Val.obj (networkCreatePayload name ipAssignment)) := by
  refine ⟨?_, ?_, fun _ _ => rfl, fun _ _ => rfl⟩
  · by_cases h : Obj.hasKey ipAssignment "private" = true
    · rw [if_pos h]
      obtain ⟨w, hw⟩ := Option.isSome_iff_exists.mp
        (by rw [Obj.get_isSome_eq_hasKey]; exact h)
      rw [hw]
      exact Obj.get_cons_of_some _ _ _ w (Obj.get_cons_of_some _ _ _ w hw)
    · rw [if_neg h]
      have h' : Obj.hasKey ipAssignment "private" = false := by
        cases hb : Obj.hasKey ipAssignment "private"
        · rfl
        · exact absurd hb h
      exact Obj.get_cons_of_some _ _ _ _
        (Obj.get_cons_self "private" (Val.bool true) ipAssignment h')
  · by_cases h : Obj.hasKey ipAssignment "name" = true
    · rw [if_pos h]
      obtain ⟨w, hw⟩ := Option.isSome_iff_exists.mp
        (by rw [Obj.get_isSome_eq_hasKey]; exact h)
      rw [hw]
      exact Obj.get_cons_of_some _ _ _ w (Obj.get_cons_of_some _ _ _ w hw)
    · rw [if_neg h]
      have h' : Obj.hasKey ipAssignment "name" = false := by
        cases hb : Obj.hasKey ipAssignment "name"
        · rfl
        · exact absurd hb h
      have hpn : Obj.hasKey (("private", Val.bool true) :: ipAssignment) "name" = false := by
        rw [Obj.hasKey_cons, h']
        rfl
      exact Obj.get_cons_self "name" (Val.str name) _ hpn
